import Mathlib

/-!
Shallow embedding of the Klantroef media-platform backend (Node/Express + SQLite + Redis).

Sources embedded here:
* `routes/media.js` — the five core operations: `POST /media/:id/view` (RecordView),
  `GET /media/:id/analytics` (GetAnalytics), `GET /media/:id/stream-url` (IssueCapability /
  mint), `GET /media/:id/stream` (RedeemCapability), and the periodic `setInterval` token
  cleanup (reap).
* `config/redis.js` — the cache helpers `getCachedData`, `setCachedData`, `deleteCachedData`,
  `generateAnalyticsCacheKey`, `invalidateAnalyticsCache`.  Every helper catches backend
  errors; an unreachable or unconfigured client makes `get` return null and `set`/`delete`
  return false.  The boolean `redisUp` below models "client configured and reachable"; both
  JS failure modes (no client, thrown error) are behaviourally identical, so one flag
  suffices.
* `config/database.js` — the `MediaAsset` and `MediaViewLog` tables, embedded as lists.
* `middleware/rateLimit.js` — the `viewLoggingLimiter` configuration (1-minute window,
  limit 10, key `req.ip + "-" + req.params.id`).  The counting algorithm itself lives in
  the external `express-rate-limit` package, so it is modelled from the spec (see
  `checkAdmission`).

Time is measured in integer milliseconds (the JS `Date` clock).  SQLite `DATE(timestamp)`
grouping is modelled by the calendar-day index `t / 86400000`.
-/

namespace Klantroef

/-- Row of the `MediaAsset` table (`config/database.js`). -/
structure MediaAsset where
  id : Nat
  title : String
  mtype : String
  file_url : String
deriving DecidableEq, Repr

/-- Row of the `MediaViewLog` table: one view event (`media_id`, `viewed_by_ip`,
`timestamp`), with `timestamp` the server clock at insertion. -/
structure ViewEvent where
  media_id : Nat
  viewed_by_ip : String
  timestamp : Nat
deriving DecidableEq, Repr

/-- Value stored in the `streamingTokens` map of `routes/media.js`:
`{ mediaId, expiresAt, clientIP }`. -/
structure TokenData where
  mediaId : Nat
  expiresAt : Nat
  clientIP : String
deriving DecidableEq, Repr

/-- One element of the `recent_views` field of the analytics payload:
`{ ip, timestamp }`. -/
structure RecentView where
  ip : String
  timestamp : Nat
deriving DecidableEq, Repr

/-- The `analyticsData` object built by `GET /media/:id/analytics`.  `views_per_day` is the
per-calendar-day histogram, keyed by day index, in the order produced by the SQL
`ORDER BY view_date DESC`. -/
structure Analytics where
  total_views : Nat
  unique_ips : Nat
  views_per_day : List (Nat × Nat)
  recent_views : List RecentView
deriving DecidableEq, Repr

/-- Observable outcome of one request, mirroring the JSON responses and status codes of
`routes/media.js` and the rate limiter. -/
inductive MediaResult where
  | viewLogged (mediaId : Nat) (title ip : String)
  | analytics (a : Analytics) (cached : Bool)
  | streamUrlOk (token : String) (expiresAt : Nat)
  | fileStream (filename : String)
  | allowed
  | denied (retryAfter : Nat)
  | notFound (msg : String)
  | unauthorized (msg : String)
deriving DecidableEq, Repr

/-- Predicate picking out the 404 "not found" responses. -/
def MediaResult.isNotFound : MediaResult → Bool
  | .notFound _ => true
  | _ => false

/-- Whole-system state: the two SQLite tables, the in-process `streamingTokens` map, the
Redis contents (key, value, absolute expiry) together with reachability, and the set of
file names present in the uploads directory. -/
structure St where
  store : List MediaAsset
  viewLog : List ViewEvent
  tokens : List (String × TokenData)
  cache : List (String × (Analytics × Nat))
  redisUp : Bool
  files : List String
deriving DecidableEq, Repr

/-! ### Association-list primitives (JS `Map` / Redis keyspace) -/

/-- Lookup in an association list keyed by strings (JS `Map.get` / Redis `GET`). -/
def lookupA {α : Type} (l : List (String × α)) (k : String) : Option α :=
  (l.find? (fun p => p.1 == k)).map Prod.snd

/-- Removal of a key (JS `Map.delete` / Redis `DEL`). -/
def eraseKey {α : Type} (l : List (String × α)) (k : String) : List (String × α) :=
  l.filter (fun p => !(p.1 == k))

/-- Insertion or overwrite of a key (JS `Map.set` / Redis `SETEX`). -/
def mapSet {α : Type} (l : List (String × α)) (k : String) (v : α) : List (String × α) :=
  (k, v) :: eraseKey l k

/-! ### Redis cache helpers (`config/redis.js`) -/

/-- Cache key `analytics:media:<id>` built by `generateAnalyticsCacheKey`. -/
def generateAnalyticsCacheKey (mediaId : Nat) : String :=
  "analytics:media:" ++ toString mediaId

/-- Embedding of `getCachedData`: null when the client is missing/unreachable or the key is
absent or past its TTL, otherwise the stored value. -/
def getCachedData (st : St) (key : String) (now : Nat) : Option Analytics :=
  if st.redisUp then
    match lookupA st.cache key with
    | some (a, exp) => if now < exp then some a else none
    | none => none
  else none

/-- Embedding of `setCachedData`: stores the value with absolute expiry `now + ttl`; a
backend failure is caught and leaves the state unchanged. -/
def setCachedData (st : St) (key : String) (a : Analytics) (now ttl : Nat) : St :=
  if st.redisUp then { st with cache := mapSet st.cache key (a, now + ttl) } else st

/-- Embedding of `deleteCachedData`: evicts the key; a backend failure is caught and leaves
the state unchanged. -/
def deleteCachedData (st : St) (key : String) : St :=
  if st.redisUp then { st with cache := eraseKey st.cache key } else st

/-- Embedding of `invalidateAnalyticsCache`. -/
def invalidateAnalyticsCache (st : St) (mediaId : Nat) : St :=
  deleteCachedData st (generateAnalyticsCacheKey mediaId)

/-! ### Analytics computation (`GET /media/:id/analytics`, database branch) -/

/-- Calendar-day index of a millisecond timestamp (SQLite `DATE(timestamp)`). -/
def dayOf (t : Nat) : Nat := t / 86400000

/-- Rows of `MediaViewLog` for one media id (`WHERE media_id = ?`). -/
def eventsFor (log : List ViewEvent) (mediaId : Nat) : List ViewEvent :=
  log.filter (fun e => e.media_id == mediaId)

/-- Rows within the histogram window: `timestamp >= DATE('now','-30 days')`, i.e. events
whose calendar day is at least thirty days before today's. -/
def windowEvents (log : List ViewEvent) (mediaId now : Nat) : List ViewEvent :=
  (eventsFor log mediaId).filter (fun e => decide (dayOf now - 30 ≤ dayOf e.timestamp))

/-- Insertion step of a descending insertion sort on the key `f`. -/
def insertDescBy {α : Type} (f : α → Nat) (x : α) : List α → List α
  | [] => [x]
  | y :: ys => if f y < f x then x :: y :: ys else y :: insertDescBy f x ys

/-- Descending insertion sort on the key `f` (SQL `ORDER BY ... DESC`). -/
def sortDescBy {α : Type} (f : α → Nat) : List α → List α
  | [] => []
  | x :: xs => insertDescBy f x (sortDescBy f xs)

/-- The `views_per_day` histogram: per-day counts inside the 30-day window, grouped by
calendar day, days ordered descending (`GROUP BY DATE(timestamp) ORDER BY view_date DESC`). -/
def histogram (log : List ViewEvent) (mediaId now : Nat) : List (Nat × Nat) :=
  let evs := windowEvents log mediaId now
  (sortDescBy (fun d => d) (evs.map (fun e => dayOf e.timestamp)).dedup).map
    (fun d => (d, (evs.filter (fun e => dayOf e.timestamp == d)).length))

/-- The `recent_views` list: the ten most recent events, most recent first
(`ORDER BY timestamp DESC LIMIT 10`). -/
def recentViews (log : List ViewEvent) (mediaId : Nat) : List RecentView :=
  ((sortDescBy (fun e => e.timestamp) (eventsFor log mediaId)).take 10).map
    (fun e => ⟨e.viewed_by_ip, e.timestamp⟩)

/-- The full snapshot built by the database branch of `GET /media/:id/analytics`. -/
def computeAnalytics (log : List ViewEvent) (mediaId now : Nat) : Analytics :=
  { total_views := (eventsFor log mediaId).length
    unique_ips := ((eventsFor log mediaId).map (fun e => e.viewed_by_ip)).dedup.length
    views_per_day := histogram log mediaId now
    recent_views := recentViews log mediaId }

/-! ### The five core operations (`routes/media.js`) -/

/-- Lookup of a `MediaAsset` row by id (`SELECT ... FROM MediaAsset WHERE id = ?`). -/
def findMedia (st : St) (mediaId : Nat) : Option MediaAsset :=
  st.store.find? (fun m => m.id == mediaId)

/-- Embedding of `POST /media/:id/view`: 404 if the media row is absent, otherwise append a
view event and invalidate the cached analytics. -/
def recordView (st : St) (mediaId : Nat) (clientIP : String) (now : Nat) :
    MediaResult × St :=
  match findMedia st mediaId with
  | none => (.notFound "Media not found", st)
  | some media =>
    let st1 := { st with viewLog := st.viewLog ++ [⟨mediaId, clientIP, now⟩] }
    let st2 := invalidateAnalyticsCache st1 mediaId
    (.viewLogged media.id media.title clientIP, st2)

/-- Embedding of `GET /media/:id/analytics`: 404 if the media row is absent; serve a live
cached snapshot tagged `cached: true`; otherwise recompute from the view log, store it for
300 seconds, and tag it `cached: false`. -/
def getAnalytics (st : St) (mediaId now : Nat) : MediaResult × St :=
  match findMedia st mediaId with
  | none => (.notFound "Media not found", st)
  | some _ =>
    match getCachedData st (generateAnalyticsCacheKey mediaId) now with
    | some a => (.analytics a true, st)
    | none =>
      (.analytics (computeAnalytics st.viewLog mediaId now) false,
        setCachedData st (generateAnalyticsCacheKey mediaId)
          (computeAnalytics st.viewLog mediaId now) now 300000)

/-- Embedding of `GET /media/:id/stream-url` (mint): 404 if the media row is absent;
otherwise register the freshly generated token with expiry `now + 10 minutes`, append a
view event, and invalidate the cached analytics.  The `uuidv4()` call is modelled by the
parameter `tok`. -/
def streamUrl (st : St) (mediaId : Nat) (clientIP : String) (now : Nat) (tok : String) :
    MediaResult × St :=
  match findMedia st mediaId with
  | none => (.notFound "Media not found", st)
  | some _ =>
    let expiresAt := now + 600000
    let st1 := { st with tokens := mapSet st.tokens tok ⟨mediaId, expiresAt, clientIP⟩ }
    let st2 := { st1 with viewLog := st1.viewLog ++ [⟨mediaId, clientIP, now⟩] }
    (.streamUrlOk tok expiresAt, invalidateAnalyticsCache st2 mediaId)

/-- Last path segment of a file URL (`path.basename`). -/
def basename (s : String) : String :=
  ⟨(s.data.reverse.takeWhile (fun c => c != '/')).reverse⟩

/-- Embedding of `GET /media/:id/stream` (redeem): 401 when the token is missing, unknown,
expired (`new Date() > expiresAt`, the entry being deleted on that path), or bound to a
different media id; only then is storage consulted — 404 when the row or the file is
absent, otherwise the file is streamed.  The token entry is never consumed on success. -/
def streamRedeem (st : St) (mediaId : Nat) (tokenQ : Option String) (now : Nat) :
    MediaResult × St :=
  match tokenQ with
  | none => (.unauthorized "Streaming token required", st)
  | some token =>
    match lookupA st.tokens token with
    | none => (.unauthorized "Invalid streaming token", st)
    | some td =>
      if td.expiresAt < now then
        (.unauthorized "Streaming token expired", { st with tokens := eraseKey st.tokens token })
      else if td.mediaId ≠ mediaId then
        (.unauthorized "Invalid streaming token for this media", st)
      else
        match findMedia st mediaId with
        | none => (.notFound "Media not found", st)
        | some media =>
          let filename := basename media.file_url
          if filename ∈ st.files then (.fileStream filename, st)
          else (.notFound "Media file not found", st)

/-- Embedding of the periodic `setInterval` cleanup: delete every token entry with
`now > expiresAt` (strict comparison, as in the source). -/
def reap (st : St) (now : Nat) : St :=
  { st with tokens := st.tokens.filter (fun p => !(decide (p.2.expiresAt < now))) }

/-! ### Admission control

The `viewLoggingLimiter` configuration lives in `middleware/rateLimit.js` (window one
minute, limit ten, key `req.ip + "-" + req.params.id`); the counting algorithm is in the
external `express-rate-limit` package, outside this repository's sources. -/

/-- Per-key counter state of one fixed-window rate limiter: hit count and window start. -/
structure RLEntry where
  count : Nat
  windowStart : Nat
deriving DecidableEq, Repr

/-- Counter table of one limiter, keyed by the generated key string. -/
abbrev RLState := List (String × RLEntry)

/-- Modelled from the spec: the fixed-window counting algorithm of the admission-control
layer (the `express-rate-limit` implementation is not part of this repository's sources).
Each counter tracks a window-start and count per key; a request exceeding its limit is
rejected, carrying the remaining window as retry-after, without incrementing further; the
window resets once elapsed. -/
def checkAdmission (windowMs limit : Nat) (rl : RLState) (key : String) (now : Nat) :
    MediaResult × RLState :=
  match lookupA rl key with
  | none => (.allowed, mapSet rl key ⟨1, now⟩)
  | some e =>
    if e.windowStart + windowMs ≤ now then
      (.allowed, mapSet rl key ⟨1, now⟩)
    else if e.count < limit then
      (.allowed, mapSet rl key ⟨e.count + 1, e.windowStart⟩)
    else
      (.denied (e.windowStart + windowMs - now), rl)

/-- Key generator of the view-logging limiter: `req.ip + "-" + req.params.id` (the path
parameter is the raw URL string). -/
def viewLoggingKey (ip idStr : String) : String := ip ++ "-" ++ idStr

/-- Window of the view-logging limiter: one minute. -/
def viewLoggingWindowMs : Nat := 60000

/-- Limit of the view-logging limiter: ten requests per window. -/
def viewLoggingMax : Nat := 10

/-- Sequential processing of a list of (key, time) requests through one limiter. -/
def admitSeq (windowMs limit : Nat) (rl : RLState) :
    List (String × Nat) → List MediaResult × RLState
  | [] => ([], rl)
  | (k, t) :: rest =>
    let s1 := checkAdmission windowMs limit rl k t
    let s2 := admitSeq windowMs limit s1.2 rest
    (s1.1 :: s2.1, s2.2)

/-! ### Association-list lemmas -/

theorem data_append (s t : String) : (s ++ t).data = s.data ++ t.data := rfl

theorem append_left_cancel {s a b : String} (h : s ++ a = s ++ b) : a = b := by
  have hd := congrArg String.data h
  rw [data_append, data_append] at hd
  exact String.ext (List.append_cancel_left hd)

theorem viewLoggingKey_ne (ip : String) {a b : String} (h : a ≠ b) :
    viewLoggingKey ip a ≠ viewLoggingKey ip b := by
  intro he
  exact h (append_left_cancel (append_left_cancel (by
    simpa [viewLoggingKey, String.append_assoc] using he)))

theorem lookupA_eraseKey_self {α : Type} (l : List (String × α)) (k : String) :
    lookupA (eraseKey l k) k = none := by
  induction l with
  | nil => rfl
  | cons p l ih =>
    by_cases hp : p.1 = k
    · simp only [eraseKey, List.filter_cons] at ih ⊢
      simp [hp, ih]
    · simp only [eraseKey, List.filter_cons] at ih ⊢
      simp [lookupA, List.find?, beq_eq_false_iff_ne.mpr hp] at ih ⊢
      try exact ih

theorem lookupA_eraseKey_ne {α : Type} (l : List (String × α)) {k k' : String}
    (h : k' ≠ k) : lookupA (eraseKey l k) k' = lookupA l k' := by
  have hkk : (k == k') = false := beq_eq_false_iff_ne.mpr (Ne.symm h)
  induction l with
  | nil => rfl
  | cons p l ih =>
    by_cases hp : p.1 = k
    · simpa [eraseKey, lookupA, hp, List.filter_cons, List.find?, hkk] using ih
    · by_cases hq : p.1 = k'
      · have h1 : (!(p.1 == k)) = true := by simp [hp]
        have h2 : (p.1 == k') = true := by simp [hq]
        simp [eraseKey, lookupA, List.filter_cons, List.find?, h1, h2]
      · simpa [eraseKey, lookupA, List.filter_cons, List.find?,
          beq_eq_false_iff_ne.mpr hp, beq_eq_false_iff_ne.mpr hq] using ih

theorem lookupA_mapSet_self {α : Type} (l : List (String × α)) (k : String) (v : α) :
    lookupA (mapSet l k v) k = some v := by
  simp [mapSet, lookupA, List.find?]

theorem lookupA_mapSet_ne {α : Type} (l : List (String × α)) {k k' : String} (v : α)
    (h : k' ≠ k) : lookupA (mapSet l k v) k' = lookupA l k' := by
  have : (k == k') = false := beq_eq_false_iff_ne.mpr (Ne.symm h)
  simp only [mapSet, lookupA, List.find?, this]
  exact lookupA_eraseKey_ne l h

/-! ### Cache-state lemmas -/

theorem invalidate_fields (st : St) (mediaId : Nat) :
    (invalidateAnalyticsCache st mediaId).store = st.store ∧
    (invalidateAnalyticsCache st mediaId).viewLog = st.viewLog ∧
    (invalidateAnalyticsCache st mediaId).tokens = st.tokens ∧
    (invalidateAnalyticsCache st mediaId).redisUp = st.redisUp ∧
    (invalidateAnalyticsCache st mediaId).files = st.files := by
  unfold invalidateAnalyticsCache deleteCachedData
  split <;> simp

theorem getCachedData_invalidate_self (st : St) (mediaId : Nat) (t : Nat) :
    getCachedData (invalidateAnalyticsCache st mediaId)
      (generateAnalyticsCacheKey mediaId) t = none := by
  unfold invalidateAnalyticsCache deleteCachedData getCachedData
  by_cases h : st.redisUp
  · simp [h, lookupA_eraseKey_self]
  · simp [h]

theorem setCachedData_fields (st : St) (key : String) (a : Analytics) (now ttl : Nat) :
    (setCachedData st key a now ttl).store = st.store ∧
    (setCachedData st key a now ttl).viewLog = st.viewLog ∧
    (setCachedData st key a now ttl).tokens = st.tokens ∧
    (setCachedData st key a now ttl).redisUp = st.redisUp ∧
    (setCachedData st key a now ttl).files = st.files := by
  unfold setCachedData
  split <;> simp

theorem findMedia_invalidate (st : St) (mediaId mid : Nat) :
    findMedia (invalidateAnalyticsCache st mediaId) mid = findMedia st mid := by
  unfold findMedia
  rw [(invalidate_fields st mediaId).1]

/-! ### Operation-unfolding lemmas -/

theorem getAnalytics_miss {st : St} {mediaId now : Nat} {m : MediaAsset}
    (hm : findMedia st mediaId = some m)
    (hc : getCachedData st (generateAnalyticsCacheKey mediaId) now = none) :
    getAnalytics st mediaId now =
      (.analytics (computeAnalytics st.viewLog mediaId now) false,
        setCachedData st (generateAnalyticsCacheKey mediaId)
          (computeAnalytics st.viewLog mediaId now) now 300000) := by
  unfold getAnalytics
  rw [hm, hc]

theorem getAnalytics_hit {st : St} {mediaId now : Nat} {m : MediaAsset} {a : Analytics}
    (hm : findMedia st mediaId = some m)
    (hc : getCachedData st (generateAnalyticsCacheKey mediaId) now = some a) :
    getAnalytics st mediaId now = (.analytics a true, st) := by
  unfold getAnalytics
  rw [hm, hc]

theorem recordView_some {st : St} {mediaId : Nat} {m : MediaAsset} (clientIP : String)
    (now : Nat) (hm : findMedia st mediaId = some m) :
    recordView st mediaId clientIP now =
      (.viewLogged m.id m.title clientIP,
        invalidateAnalyticsCache
          { st with viewLog := st.viewLog ++ [⟨mediaId, clientIP, now⟩] } mediaId) := by
  unfold recordView
  rw [hm]

theorem streamUrl_some {st : St} {mediaId : Nat} {m : MediaAsset} (clientIP : String)
    (now : Nat) (tok : String) (hm : findMedia st mediaId = some m) :
    streamUrl st mediaId clientIP now tok =
      (.streamUrlOk tok (now + 600000),
        invalidateAnalyticsCache
          { st with
            tokens := mapSet st.tokens tok ⟨mediaId, now + 600000, clientIP⟩,
            viewLog := st.viewLog ++ [⟨mediaId, clientIP, now⟩] } mediaId) := by
  unfold streamUrl
  rw [hm]

theorem streamRedeem_unknown {st : St} {mediaId now : Nat} {tok : String}
    (h : lookupA st.tokens tok = none) :
    streamRedeem st mediaId (some tok) now =
      (.unauthorized "Invalid streaming token", st) := by
  simp [streamRedeem, h]

theorem streamRedeem_expired {st : St} {mediaId now : Nat} {tok : String}
    {td : TokenData} (h : lookupA st.tokens tok = some td)
    (he : td.expiresAt < now) :
    streamRedeem st mediaId (some tok) now =
      (.unauthorized "Streaming token expired",
        { st with tokens := eraseKey st.tokens tok }) := by
  simp [streamRedeem, h, he]

theorem streamRedeem_mismatch {st : St} {mediaId now : Nat} {tok : String}
    {td : TokenData} (h : lookupA st.tokens tok = some td)
    (he : ¬ td.expiresAt < now) (hb : td.mediaId ≠ mediaId) :
    streamRedeem st mediaId (some tok) now =
      (.unauthorized "Invalid streaming token for this media", st) := by
  simp [streamRedeem, h, he, hb]

theorem streamRedeem_noRow {st : St} {mediaId now : Nat} {tok : String}
    {td : TokenData} (h : lookupA st.tokens tok = some td)
    (he : ¬ td.expiresAt < now) (hb : td.mediaId = mediaId)
    (hrow : findMedia st mediaId = none) :
    streamRedeem st mediaId (some tok) now = (.notFound "Media not found", st) := by
  simp [streamRedeem, h, he, hb, hrow]

theorem streamRedeem_ok {st : St} {mediaId now : Nat} {tok : String}
    {td : TokenData} {m : MediaAsset} (h : lookupA st.tokens tok = some td)
    (he : ¬ td.expiresAt < now) (hb : td.mediaId = mediaId)
    (hrow : findMedia st mediaId = some m) (hf : basename m.file_url ∈ st.files) :
    streamRedeem st mediaId (some tok) now =
      (.fileStream (basename m.file_url), st) := by
  simp [streamRedeem, h, he, hb, hrow, hf]

/-! ### Insertion-sort lemmas -/

theorem mem_insertDescBy {α : Type} (f : α → Nat) (x a : α) (l : List α) :
    a ∈ insertDescBy f x l ↔ a = x ∨ a ∈ l := by
  induction l with
  | nil => simp [insertDescBy]
  | cons y ys ih =>
    unfold insertDescBy
    by_cases h : f y < f x
    · simp [h]
    · simp [h, ih]
      tauto

theorem perm_insertDescBy {α : Type} (f : α → Nat) (x : α) (l : List α) :
    List.Perm (insertDescBy f x l) (x :: l) := by
  induction l with
  | nil => exact List.Perm.refl _
  | cons y ys ih =>
    unfold insertDescBy
    by_cases h : f y < f x
    · rw [if_pos h]
    · rw [if_neg h]
      exact (List.Perm.cons y ih).trans (List.Perm.swap x y ys)

theorem perm_sortDescBy {α : Type} (f : α → Nat) (l : List α) :
    List.Perm (sortDescBy f l) l := by
  induction l with
  | nil => exact List.Perm.refl _
  | cons x xs ih =>
    exact (perm_insertDescBy f x (sortDescBy f xs)).trans (List.Perm.cons x ih)

theorem length_sortDescBy {α : Type} (f : α → Nat) (l : List α) :
    (sortDescBy f l).length = l.length := (perm_sortDescBy f l).length_eq

theorem mem_sortDescBy {α : Type} (f : α → Nat) (a : α) (l : List α) :
    a ∈ sortDescBy f l ↔ a ∈ l := (perm_sortDescBy f l).mem_iff

theorem nodup_sortDescBy {α : Type} (f : α → Nat) {l : List α} (h : l.Nodup) :
    (sortDescBy f l).Nodup := (perm_sortDescBy f l).nodup_iff.mpr h

theorem pairwise_insertDescBy {α : Type} (f : α → Nat) (x : α) {l : List α}
    (hl : List.Pairwise (fun a b => f b ≤ f a) l) :
    List.Pairwise (fun a b => f b ≤ f a) (insertDescBy f x l) := by
  induction l with
  | nil => simp [insertDescBy]
  | cons y ys ih =>
    rcases List.pairwise_cons.mp hl with ⟨hy, hys⟩
    unfold insertDescBy
    by_cases h : f y < f x
    · rw [if_pos h]
      refine List.pairwise_cons.mpr ⟨?_, hl⟩
      intro b hb
      rcases List.mem_cons.mp hb with rfl | hb
      · exact le_of_lt h
      · exact le_trans (hy b hb) (le_of_lt h)
    · rw [if_neg h]
      refine List.pairwise_cons.mpr ⟨?_, ih hys⟩
      intro b hb
      rcases (mem_insertDescBy f x b ys).mp hb with rfl | hb
      · exact Nat.le_of_not_lt h
      · exact hy b hb

theorem pairwise_sortDescBy {α : Type} (f : α → Nat) (l : List α) :
    List.Pairwise (fun a b => f b ≤ f a) (sortDescBy f l) := by
  induction l with
  | nil => exact List.Pairwise.nil
  | cons x xs ih => exact pairwise_insertDescBy f x ih

/-! ### Analytics-shape lemmas -/

theorem total_views_countP (log : List ViewEvent) (mediaId now : Nat) :
    (computeAnalytics log mediaId now).total_views =
      log.countP (fun e => e.media_id == mediaId) := by
  unfold computeAnalytics eventsFor
  exact (List.countP_eq_length_filter _ _).symm

theorem unique_ips_card (log : List ViewEvent) (mediaId now : Nat) :
    (computeAnalytics log mediaId now).unique_ips =
      ((eventsFor log mediaId).map (fun e => e.viewed_by_ip)).toFinset.card := by
  unfold computeAnalytics
  rw [List.card_toFinset]

theorem histogram_sorted (log : List ViewEvent) (mediaId now : Nat) :
    List.Pairwise (fun p q : Nat × Nat => q.1 < p.1) (histogram log mediaId now) := by
  unfold histogram
  apply List.pairwise_map.mpr
  have hs := pairwise_sortDescBy (fun d => d)
    ((windowEvents log mediaId now).map (fun e => dayOf e.timestamp)).dedup
  have hn : (sortDescBy (fun d => d)
      ((windowEvents log mediaId now).map (fun e => dayOf e.timestamp)).dedup).Nodup :=
    nodup_sortDescBy _ (List.nodup_dedup _)
  exact (hs.and hn).imp (fun h => lt_of_le_of_ne h.1 (Ne.symm h.2))

theorem histogram_mem {log : List ViewEvent} {mediaId now d c : Nat}
    (h : (d, c) ∈ histogram log mediaId now) :
    dayOf now - 30 ≤ d ∧ 0 < c ∧
      c = ((windowEvents log mediaId now).filter
        (fun e => dayOf e.timestamp == d)).length := by
  unfold histogram at h
  rcases List.mem_map.mp h with ⟨d', hd', hdc⟩
  obtain ⟨rfl, rfl⟩ : d' = d ∧
      ((windowEvents log mediaId now).filter
        (fun e => dayOf e.timestamp == d')).length = c := by
    exact ⟨congrArg Prod.fst hdc, congrArg Prod.snd hdc⟩
  have hmem : d' ∈ ((windowEvents log mediaId now).map
      (fun e => dayOf e.timestamp)).dedup := (mem_sortDescBy _ _ _).mp hd'
  rcases List.mem_map.mp (List.mem_dedup.mp hmem) with ⟨e, he, hday⟩
  refine ⟨?_, ?_, rfl⟩
  · have := (List.mem_filter.mp he).2
    rw [← hday]
    exact of_decide_eq_true this
  · exact List.length_pos.mpr
      (List.ne_nil_of_mem (List.mem_filter.mpr ⟨he, by simp [hday]⟩))

theorem histogram_complete {log : List ViewEvent} {mediaId now : Nat} {e : ViewEvent}
    (he : e ∈ windowEvents log mediaId now) :
    (dayOf e.timestamp,
      ((windowEvents log mediaId now).filter
        (fun x => dayOf x.timestamp == dayOf e.timestamp)).length) ∈
      histogram log mediaId now := by
  unfold histogram
  apply List.mem_map.mpr
  refine ⟨dayOf e.timestamp, ?_, rfl⟩
  apply (mem_sortDescBy _ _ _).mpr
  exact List.mem_dedup.mpr (List.mem_map.mpr ⟨e, he, rfl⟩)

theorem length_recentViews (log : List ViewEvent) (mediaId : Nat) :
    (recentViews log mediaId).length = min 10 (eventsFor log mediaId).length := by
  unfold recentViews
  rw [List.length_map, List.length_take, length_sortDescBy]

theorem pairwise_recentViews (log : List ViewEvent) (mediaId : Nat) :
    List.Pairwise (fun p q : RecentView => q.timestamp ≤ p.timestamp)
      (recentViews log mediaId) := by
  unfold recentViews
  apply List.pairwise_map.mpr
  exact List.Pairwise.sublist (List.take_sublist _ _)
    (pairwise_sortDescBy (fun e => e.timestamp) (eventsFor log mediaId))

theorem recentViews_subset {log : List ViewEvent} {mediaId : Nat} {r : RecentView}
    (hr : r ∈ recentViews log mediaId) :
    r ∈ (eventsFor log mediaId).map
      (fun e => RecentView.mk e.viewed_by_ip e.timestamp) := by
  unfold recentViews at hr
  rcases List.mem_map.mp hr with ⟨e, he, rfl⟩
  exact List.mem_map.mpr
    ⟨e, (mem_sortDescBy _ _ _).mp (List.take_subset _ _ he), rfl⟩

theorem recentViews_most_recent {log : List ViewEvent} {mediaId : Nat} {e : ViewEvent}
    {r : RecentView} (he : e ∈ eventsFor log mediaId)
    (hr : r ∈ recentViews log mediaId) :
    RecentView.mk e.viewed_by_ip e.timestamp ∈ recentViews log mediaId ∨
      e.timestamp ≤ r.timestamp := by
  have hsorted := pairwise_sortDescBy (fun x => x.timestamp) (eventsFor log mediaId)
  have hsplit := List.take_append_drop 10 (sortDescBy (fun x => x.timestamp)
    (eventsFor log mediaId))
  have hes : e ∈ sortDescBy (fun x => x.timestamp) (eventsFor log mediaId) :=
    (mem_sortDescBy _ _ _).mpr he
  rw [← hsplit] at hes
  rcases List.mem_append.mp hes with htake | hdrop
  · exact Or.inl (List.mem_map.mpr ⟨e, htake, rfl⟩)
  · right
    unfold recentViews at hr
    rcases List.mem_map.mp hr with ⟨e', he', rfl⟩
    rw [← hsplit] at hsorted
    exact (List.pairwise_append.mp hsorted).2.2 e' he' e hdrop

theorem checkAdmission_never_notFound (w l : Nat) (rl : RLState) (key : String)
    (now : Nat) : (checkAdmission w l rl key now).1.isNotFound = false := by
  unfold checkAdmission
  cases lookupA rl key with
  | none => rfl
  | some e =>
    by_cases hw : e.windowStart + w ≤ now
    · simp [hw, MediaResult.isNotFound]
    · by_cases hc : e.count < l
      · simp [hw, hc, MediaResult.isNotFound]
      · simp [hw, hc, MediaResult.isNotFound]

/-! ### Claim theorems -/

/-- C6 (counterexample): the claim says reap at `t ≥ expires_at` removes the entry, but the
source compares strictly (`now > data.expiresAt`): at `t = expires_at` the entry survives
and the registry size does not decrease. -/
theorem c6_counterexample :
    (reap (⟨[], [], [("t", ⟨1, 100, "ip"⟩)], [], true, []⟩ : St) 100).tokens =
      [("t", ⟨1, 100, "ip"⟩)] ∧
    (reap (⟨[], [], [("t", ⟨1, 100, "ip"⟩)], [], true, []⟩ : St) 100).tokens.length =
      1 := by
  exact ⟨rfl, rfl⟩

/-- C6 (amended): reap at time `t` keeps exactly the entries with `expires_at ≥ t` —
equivalently it removes every entry whose `expires_at` is strictly past — and whenever some
entry has `expires_at < t` the registry size strictly decreases, independent of redeem
traffic. -/
theorem c6_amended (st : St) (now : Nat) (tok : String) (td : TokenData)
    (p : String × TokenData) (hp : p ∈ st.tokens) (hlt : p.2.expiresAt < now) :
    ((tok, td) ∈ (reap st now).tokens ↔
      ((tok, td) ∈ st.tokens ∧ ¬ td.expiresAt < now)) ∧
    (reap st now).tokens.length < st.tokens.length := by
  constructor
  · unfold reap
    simp [List.mem_filter]
  · unfold reap
    exact List.length_filter_lt_length_iff_exists.mpr ⟨p, hp, by simp [hlt]⟩

/-- C6 (witness): concrete registry with one entry expiring at 100 swept at time 101. -/
theorem c6_witness :
    (("t", (⟨1, 100, "ip"⟩ : TokenData)) ∈
        (reap (⟨[], [], [("t", ⟨1, 100, "ip"⟩)], [], true, []⟩ : St) 101).tokens ↔
      ("t", (⟨1, 100, "ip"⟩ : TokenData)) ∈
          (⟨[], [], [("t", ⟨1, 100, "ip"⟩)], [], true, []⟩ : St).tokens ∧
        ¬ (⟨1, 100, "ip"⟩ : TokenData).expiresAt < 101) ∧
    (reap (⟨[], [], [("t", ⟨1, 100, "ip"⟩)], [], true, []⟩ : St) 101).tokens.length <
      (⟨[], [], [("t", ⟨1, 100, "ip"⟩)], [], true, []⟩ : St).tokens.length :=
  c6_amended (⟨[], [], [("t", ⟨1, 100, "ip"⟩)], [], true, []⟩ : St) 101 "t"
    ⟨1, 100, "ip"⟩ ("t", ⟨1, 100, "ip"⟩) (by decide) (by decide)

/-- C8: with the cache backing store unreachable (no client configured or every call
failing, both caught and collapsed into `redisUp = false`), GetAnalytics on an existing
object degrades transparently to direct computation from the view log — correct snapshot,
tagged cache-miss, state untouched — and the write path (RecordView, whose invalidate also
touches the cache) still succeeds. -/
theorem c8_degrade (st : St) (mediaId now : Nat) (m : MediaAsset) (ip : String)
    (hm : findMedia st mediaId = some m) (hdown : st.redisUp = false) :
    getAnalytics st mediaId now =
      (.analytics (computeAnalytics st.viewLog mediaId now) false, st) ∧
    (recordView st mediaId ip now).1 = .viewLogged m.id m.title ip := by
  have hc : getCachedData st (generateAnalyticsCacheKey mediaId) now = none := by
    unfold getCachedData
    rw [hdown]
    rfl
  constructor
  · rw [getAnalytics_miss hm hc]
    unfold setCachedData
    rw [hdown]
    simp
  · rw [recordView_some ip now hm]

/-- C8 (witness): one-object state with an unreachable cache backend. -/
theorem c8_witness :
    getAnalytics (⟨[⟨1, "T", "video", "/uploads/f.mp4"⟩],
        [⟨1, "1.1.1.1", 5⟩], [], [], false, ["f.mp4"]⟩ : St) 1 10 =
      (.analytics (computeAnalytics [⟨1, "1.1.1.1", 5⟩] 1 10) false,
        (⟨[⟨1, "T", "video", "/uploads/f.mp4"⟩],
          [⟨1, "1.1.1.1", 5⟩], [], [], false, ["f.mp4"]⟩ : St)) ∧
    (recordView (⟨[⟨1, "T", "video", "/uploads/f.mp4"⟩],
        [⟨1, "1.1.1.1", 5⟩], [], [], false, ["f.mp4"]⟩ : St) 1 "2.2.2.2" 10).1 =
      .viewLogged 1 "T" "2.2.2.2" :=
  c8_degrade (⟨[⟨1, "T", "video", "/uploads/f.mp4"⟩],
      [⟨1, "1.1.1.1", 5⟩], [], [], false, ["f.mp4"]⟩ : St) 1 10
    ⟨1, "T", "video", "/uploads/f.mp4"⟩ "2.2.2.2" (by rfl) (by rfl)

/-- C10: redeem validates the token strictly before consulting object storage — an unknown
token yields Unauthorized regardless of whether the object exists, and a valid unexpired
token bound to an object whose row is absent yields NotFound with the registry entry left
in place. -/
theorem c10_redeem_order (st st' : St) (mediaId now : Nat) (tok : String)
    (td : TokenData)
    (h1 : lookupA st.tokens tok = none)
    (h2 : lookupA st'.tokens tok = some td)
    (h3 : ¬ td.expiresAt < now) (h4 : td.mediaId = mediaId)
    (h5 : findMedia st' mediaId = none) :
    streamRedeem st mediaId (some tok) now =
      (.unauthorized "Invalid streaming token", st) ∧
    streamRedeem st' mediaId (some tok) now = (.notFound "Media not found", st') ∧
    (streamRedeem st' mediaId (some tok) now).2.tokens = st'.tokens := by
  have hred := streamRedeem_noRow h2 h3 h4 h5
  exact ⟨streamRedeem_unknown h1, hred, by rw [hred]⟩

/-- C10 (witness): unknown token against an absent object, and a registered token bound to
object 1 redeemed while object 1 has no row. -/
theorem c10_witness :
    streamRedeem (⟨[], [], [], [], true, []⟩ : St) 1 (some "t") 0 =
      (.unauthorized "Invalid streaming token", (⟨[], [], [], [], true, []⟩ : St)) ∧
    streamRedeem (⟨[], [], [("t", ⟨1, 100, "ip"⟩)], [], true, []⟩ : St) 1
        (some "t") 50 =
      (.notFound "Media not found",
        (⟨[], [], [("t", ⟨1, 100, "ip"⟩)], [], true, []⟩ : St)) ∧
    (streamRedeem (⟨[], [], [("t", ⟨1, 100, "ip"⟩)], [], true, []⟩ : St) 1
        (some "t") 50).2.tokens =
      (⟨[], [], [("t", ⟨1, 100, "ip"⟩)], [], true, []⟩ : St).tokens :=
  c10_redeem_order (⟨[], [], [], [], true, []⟩ : St)
    (⟨[], [], [("t", ⟨1, 100, "ip"⟩)], [], true, []⟩ : St) 1 50 "t" ⟨1, 100, "ip"⟩
    (by rfl) (by rfl) (by decide) (by rfl) (by rfl)

/-- C1 (counterexample): with object id 1 absent from storage, redeeming with a token not
in the registry returns Unauthorized, not NotFound — so it is false that all five core
operations fail NotFound on an absent object id. -/
theorem c1_counterexample :
    findMedia (⟨[], [], [], [], true, []⟩ : St) 1 = none ∧
    (streamRedeem (⟨[], [], [], [], true, []⟩ : St) 1 (some "t") 0).1 =
      .unauthorized "Invalid streaming token" ∧
    ((streamRedeem (⟨[], [], [], [], true, []⟩ : St) 1 (some "t") 0).1).isNotFound =
      false :=
  ⟨rfl, rfl, rfl⟩

/-- C1 (amended): for an object id absent from storage, IssueCapability, RecordView and
GetAnalytics fail NotFound; RedeemCapability fails NotFound only when presented a valid,
unexpired token bound to that id (token validation runs first, so an unknown token yields
Unauthorized instead); CheckAdmission never consults storage and never returns NotFound. -/
theorem c1_amended (st : St) (mediaId : Nat) (ip : String) (now : Nat)
    (tokU tokV : String) (tdV : TokenData) (w l : Nat) (rl : RLState) (key : String)
    (tnow : Nat)
    (h1 : findMedia st mediaId = none)
    (h2 : lookupA st.tokens tokU = none)
    (h3 : lookupA st.tokens tokV = some tdV)
    (h4 : tdV.mediaId = mediaId)
    (h5 : ¬ tdV.expiresAt < now) :
    (recordView st mediaId ip now).1 = .notFound "Media not found" ∧
    (getAnalytics st mediaId now).1 = .notFound "Media not found" ∧
    (streamUrl st mediaId ip now tokU).1 = .notFound "Media not found" ∧
    (streamRedeem st mediaId (some tokV) now).1 = .notFound "Media not found" ∧
    (streamRedeem st mediaId (some tokU) now).1 =
      .unauthorized "Invalid streaming token" ∧
    (checkAdmission w l rl key tnow).1.isNotFound = false := by
  refine ⟨?_, ?_, ?_, ?_, ?_, checkAdmission_never_notFound w l rl key tnow⟩
  · unfold recordView
    rw [h1]
  · unfold getAnalytics
    rw [h1]
  · unfold streamUrl
    rw [h1]
  · rw [streamRedeem_noRow h3 h5 h4 h1]
  · rw [streamRedeem_unknown h2]

/-- C1 (witness): empty storage with one registered token bound to the absent id 1. -/
theorem c1_witness :
    (recordView (⟨[], [], [("v", ⟨1, 100, "ip"⟩)], [], true, []⟩ : St) 1
        "9.9.9.9" 50).1 = .notFound "Media not found" ∧
    (getAnalytics (⟨[], [], [("v", ⟨1, 100, "ip"⟩)], [], true, []⟩ : St) 1 50).1 =
      .notFound "Media not found" ∧
    (streamUrl (⟨[], [], [("v", ⟨1, 100, "ip"⟩)], [], true, []⟩ : St) 1
        "9.9.9.9" 50 "u").1 = .notFound "Media not found" ∧
    (streamRedeem (⟨[], [], [("v", ⟨1, 100, "ip"⟩)], [], true, []⟩ : St) 1
        (some "v") 50).1 = .notFound "Media not found" ∧
    (streamRedeem (⟨[], [], [("v", ⟨1, 100, "ip"⟩)], [], true, []⟩ : St) 1
        (some "u") 50).1 = .unauthorized "Invalid streaming token" ∧
    (checkAdmission 60000 10 [] "k" 0).1.isNotFound = false :=
  c1_amended (⟨[], [], [("v", ⟨1, 100, "ip"⟩)], [], true, []⟩ : St) 1 "9.9.9.9" 50
    "u" "v" ⟨1, 100, "ip"⟩ 60000 10 [] "k" 0
    (by rfl) (by rfl) (by rfl) (by rfl) (by decide)

/-- C5: minting on an existing object issues a token expiring exactly 10 minutes later,
registers it bound to the object, appends a ViewEvent for the requester, and leaves the
analytics cache unreadable for that object at every time (eager invalidation); on an
unknown object it fails NotFound.  The `uuidv4()` randomness is modelled by quantifying
over the fresh token id `tok`. -/
theorem c5_mint (st st2 : St) (mediaId : Nat) (ip tok : String) (now t : Nat)
    (m : MediaAsset) (hm : findMedia st mediaId = some m)
    (h2 : findMedia st2 mediaId = none) :
    (streamUrl st mediaId ip now tok).1 = .streamUrlOk tok (now + 600000) ∧
    lookupA (streamUrl st mediaId ip now tok).2.tokens tok =
      some ⟨mediaId, now + 600000, ip⟩ ∧
    (streamUrl st mediaId ip now tok).2.viewLog =
      st.viewLog ++ [⟨mediaId, ip, now⟩] ∧
    getCachedData (streamUrl st mediaId ip now tok).2
      (generateAnalyticsCacheKey mediaId) t = none ∧
    (streamUrl st mediaId ip now tok).2.store = st.store ∧
    (streamUrl st2 mediaId ip now tok).1 = .notFound "Media not found" := by
  rw [streamUrl_some ip now tok hm]
  refine ⟨rfl, ?_, ?_, ?_, ?_, ?_⟩
  · rw [(invalidate_fields _ _).2.2.1]
    exact lookupA_mapSet_self _ _ _
  · rw [(invalidate_fields _ _).2.1]
  · exact getCachedData_invalidate_self _ _ _
  · rw [(invalidate_fields _ _).1]
  · unfold streamUrl
    rw [h2]

/-- C5 (witness): mint for the present object 1 at time 0 with fresh token "tok". -/
theorem c5_witness :
    (streamUrl (⟨[⟨1, "T", "video", "/uploads/f.mp4"⟩], [], [], [], true,
        ["f.mp4"]⟩ : St) 1 "9.9.9.9" 0 "tok").1 = .streamUrlOk "tok" (0 + 600000) ∧
    lookupA (streamUrl (⟨[⟨1, "T", "video", "/uploads/f.mp4"⟩], [], [], [], true,
        ["f.mp4"]⟩ : St) 1 "9.9.9.9" 0 "tok").2.tokens "tok" =
      some ⟨1, 0 + 600000, "9.9.9.9"⟩ ∧
    (streamUrl (⟨[⟨1, "T", "video", "/uploads/f.mp4"⟩], [], [], [], true,
        ["f.mp4"]⟩ : St) 1 "9.9.9.9" 0 "tok").2.viewLog =
      (⟨[⟨1, "T", "video", "/uploads/f.mp4"⟩], [], [], [], true,
        ["f.mp4"]⟩ : St).viewLog ++ [⟨1, "9.9.9.9", 0⟩] ∧
    getCachedData (streamUrl (⟨[⟨1, "T", "video", "/uploads/f.mp4"⟩], [], [], [],
        true, ["f.mp4"]⟩ : St) 1 "9.9.9.9" 0 "tok").2
      (generateAnalyticsCacheKey 1) 99 = none ∧
    (streamUrl (⟨[⟨1, "T", "video", "/uploads/f.mp4"⟩], [], [], [], true,
        ["f.mp4"]⟩ : St) 1 "9.9.9.9" 0 "tok").2.store =
      (⟨[⟨1, "T", "video", "/uploads/f.mp4"⟩], [], [], [], true,
        ["f.mp4"]⟩ : St).store ∧
    (streamUrl (⟨[], [], [], [], true, []⟩ : St) 1 "9.9.9.9" 0 "tok").1 =
      .notFound "Media not found" :=
  c5_mint (⟨[⟨1, "T", "video", "/uploads/f.mp4"⟩], [], [], [], true,
      ["f.mp4"]⟩ : St) (⟨[], [], [], [], true, []⟩ : St) 1 "9.9.9.9" "tok" 0 99
    ⟨1, "T", "video", "/uploads/f.mp4"⟩ (by rfl) (by rfl)

/-- C2 (counterexample): the claim says redeem fails Expired when `now ≥ expires_at`, but
the source compares strictly (`new Date() > expiresAt`): redeeming at exactly
`now = expires_at = 100` still streams the file and leaves the state unchanged.  Also,
"otherwise it succeeds" fails when the bound object's row is absent: a valid unexpired
token then yields NotFound. -/
theorem c2_counterexample :
    (streamRedeem (⟨[], [], [("t", ⟨1, 100, "ip"⟩)], [], true, []⟩ : St) 1
        (some "t") 50).1 = .notFound "Media not found" ∧
    (streamRedeem (⟨[⟨1, "T", "video", "/uploads/f.mp4"⟩], [],
        [("t", ⟨1, 100, "ip"⟩)], [], true, ["f.mp4"]⟩ : St) 1 (some "t") 100).1 =
      .fileStream "f.mp4" ∧
    (streamRedeem (⟨[⟨1, "T", "video", "/uploads/f.mp4"⟩], [],
        [("t", ⟨1, 100, "ip"⟩)], [], true, ["f.mp4"]⟩ : St) 1 (some "t") 100).1 ≠
      .unauthorized "Streaming token expired" ∧
    (streamRedeem (⟨[⟨1, "T", "video", "/uploads/f.mp4"⟩], [],
        [("t", ⟨1, 100, "ip"⟩)], [], true, ["f.mp4"]⟩ : St) 1 (some "t") 100).2 =
      (⟨[⟨1, "T", "video", "/uploads/f.mp4"⟩], [],
        [("t", ⟨1, 100, "ip"⟩)], [], true, ["f.mp4"]⟩ : St) := by
  refine ⟨by decide, by decide, by decide, by decide⟩

/-- C2 (amended): redeem fails Unauthorized on an unknown token; fails Expired when
`now > expires_at` strictly (at `now = expires_at` the token is still accepted), evicting
exactly that registry entry; fails ObjectMismatch when the bound object id differs;
otherwise — the bound object's row and file being present — it succeeds without consuming
the token (state unchanged), so the same token redeems any number of times through
`expires_at`. -/
theorem c2_amended (st : St) (mediaId now : Nat) (t' tokU tokE tokM tokV : String)
    (tdE tdM tdV : TokenData) (m : MediaAsset)
    (hU : lookupA st.tokens tokU = none)
    (hE : lookupA st.tokens tokE = some tdE) (hEe : tdE.expiresAt < now)
    (hM : lookupA st.tokens tokM = some tdM) (hMe : ¬ tdM.expiresAt < now)
    (hMm : tdM.mediaId ≠ mediaId)
    (hV : lookupA st.tokens tokV = some tdV) (hVe : ¬ tdV.expiresAt < now)
    (hVm : tdV.mediaId = mediaId)
    (hm : findMedia st mediaId = some m) (hf : basename m.file_url ∈ st.files)
    (ht' : t' ≠ tokE) :
    streamRedeem st mediaId (some tokU) now =
      (.unauthorized "Invalid streaming token", st) ∧
    (streamRedeem st mediaId (some tokE) now).1 =
      .unauthorized "Streaming token expired" ∧
    lookupA (streamRedeem st mediaId (some tokE) now).2.tokens tokE = none ∧
    lookupA (streamRedeem st mediaId (some tokE) now).2.tokens t' =
      lookupA st.tokens t' ∧
    streamRedeem st mediaId (some tokM) now =
      (.unauthorized "Invalid streaming token for this media", st) ∧
    streamRedeem st mediaId (some tokV) now =
      (.fileStream (basename m.file_url), st) ∧
    streamRedeem (streamRedeem st mediaId (some tokV) now).2 mediaId
        (some tokV) now =
      (.fileStream (basename m.file_url), st) := by
  have hEr := @streamRedeem_expired st mediaId now tokE tdE hE hEe
  have hVr := streamRedeem_ok hV hVe hVm hm hf
  refine ⟨streamRedeem_unknown hU, by rw [hEr], ?_, ?_,
    streamRedeem_mismatch hM hMe hMm, hVr, by rw [hVr]; exact hVr⟩
  · rw [hEr]
    exact lookupA_eraseKey_self _ _
  · rw [hEr]
    exact lookupA_eraseKey_ne _ ht'

/-- C2 (witness): registry holding an unexpired bound token "v", an expired token "e", and
a token "w" bound to another object, redeemed at time 200. -/
theorem c2_witness :
    streamRedeem (⟨[⟨1, "T", "video", "/uploads/f.mp4"⟩], [],
        [("e", ⟨1, 100, "ip"⟩), ("w", ⟨2, 900, "ip"⟩), ("v", ⟨1, 900, "ip"⟩)], [],
        true, ["f.mp4"]⟩ : St) 1 (some "u") 200 =
      (.unauthorized "Invalid streaming token",
        (⟨[⟨1, "T", "video", "/uploads/f.mp4"⟩], [],
          [("e", ⟨1, 100, "ip"⟩), ("w", ⟨2, 900, "ip"⟩), ("v", ⟨1, 900, "ip"⟩)], [],
          true, ["f.mp4"]⟩ : St)) ∧
    (streamRedeem (⟨[⟨1, "T", "video", "/uploads/f.mp4"⟩], [],
        [("e", ⟨1, 100, "ip"⟩), ("w", ⟨2, 900, "ip"⟩), ("v", ⟨1, 900, "ip"⟩)], [],
        true, ["f.mp4"]⟩ : St) 1 (some "e") 200).1 =
      .unauthorized "Streaming token expired" ∧
    lookupA (streamRedeem (⟨[⟨1, "T", "video", "/uploads/f.mp4"⟩], [],
        [("e", ⟨1, 100, "ip"⟩), ("w", ⟨2, 900, "ip"⟩), ("v", ⟨1, 900, "ip"⟩)], [],
        true, ["f.mp4"]⟩ : St) 1 (some "e") 200).2.tokens "e" = none ∧
    lookupA (streamRedeem (⟨[⟨1, "T", "video", "/uploads/f.mp4"⟩], [],
        [("e", ⟨1, 100, "ip"⟩), ("w", ⟨2, 900, "ip"⟩), ("v", ⟨1, 900, "ip"⟩)], [],
        true, ["f.mp4"]⟩ : St) 1 (some "e") 200).2.tokens "v" =
      lookupA (⟨[⟨1, "T", "video", "/uploads/f.mp4"⟩], [],
        [("e", ⟨1, 100, "ip"⟩), ("w", ⟨2, 900, "ip"⟩), ("v", ⟨1, 900, "ip"⟩)], [],
        true, ["f.mp4"]⟩ : St).tokens "v" ∧
    streamRedeem (⟨[⟨1, "T", "video", "/uploads/f.mp4"⟩], [],
        [("e", ⟨1, 100, "ip"⟩), ("w", ⟨2, 900, "ip"⟩), ("v", ⟨1, 900, "ip"⟩)], [],
        true, ["f.mp4"]⟩ : St) 1 (some "w") 200 =
      (.unauthorized "Invalid streaming token for this media",
        (⟨[⟨1, "T", "video", "/uploads/f.mp4"⟩], [],
          [("e", ⟨1, 100, "ip"⟩), ("w", ⟨2, 900, "ip"⟩), ("v", ⟨1, 900, "ip"⟩)], [],
          true, ["f.mp4"]⟩ : St)) ∧
    streamRedeem (⟨[⟨1, "T", "video", "/uploads/f.mp4"⟩], [],
        [("e", ⟨1, 100, "ip"⟩), ("w", ⟨2, 900, "ip"⟩), ("v", ⟨1, 900, "ip"⟩)], [],
        true, ["f.mp4"]⟩ : St) 1 (some "v") 200 =
      (.fileStream (basename (⟨1, "T", "video",
          "/uploads/f.mp4"⟩ : MediaAsset).file_url),
        (⟨[⟨1, "T", "video", "/uploads/f.mp4"⟩], [],
          [("e", ⟨1, 100, "ip"⟩), ("w", ⟨2, 900, "ip"⟩), ("v", ⟨1, 900, "ip"⟩)], [],
          true, ["f.mp4"]⟩ : St)) ∧
    streamRedeem (streamRedeem (⟨[⟨1, "T", "video", "/uploads/f.mp4"⟩], [],
        [("e", ⟨1, 100, "ip"⟩), ("w", ⟨2, 900, "ip"⟩), ("v", ⟨1, 900, "ip"⟩)], [],
        true, ["f.mp4"]⟩ : St) 1 (some "v") 200).2 1 (some "v") 200 =
      (.fileStream (basename (⟨1, "T", "video",
          "/uploads/f.mp4"⟩ : MediaAsset).file_url),
        (⟨[⟨1, "T", "video", "/uploads/f.mp4"⟩], [],
          [("e", ⟨1, 100, "ip"⟩), ("w", ⟨2, 900, "ip"⟩), ("v", ⟨1, 900, "ip"⟩)], [],
          true, ["f.mp4"]⟩ : St)) :=
  c2_amended (⟨[⟨1, "T", "video", "/uploads/f.mp4"⟩], [],
      [("e", ⟨1, 100, "ip"⟩), ("w", ⟨2, 900, "ip"⟩), ("v", ⟨1, 900, "ip"⟩)], [],
      true, ["f.mp4"]⟩ : St) 1 200 "v" "u" "e" "w" "v"
    ⟨1, 100, "ip"⟩ ⟨2, 900, "ip"⟩ ⟨1, 900, "ip"⟩ ⟨1, "T", "video", "/uploads/f.mp4"⟩
    (by decide) (by decide) (by decide) (by decide) (by decide) (by decide)
    (by decide) (by decide) (by decide) (by decide) (by decide) (by decide)

/-- C3: both write paths that append a ViewEvent for object X (RecordView and mint) leave
X's cached analytics unreadable at every subsequent time, so the next GetAnalytics(X)
recomputes from the view log including the new event, tagged cache-miss, regardless of any
remaining TTL of the previously cached snapshot. -/
theorem c3_invalidation (st : St) (mediaId : Nat) (ip tok : String)
    (now t now2 : Nat) (m : MediaAsset) (hm : findMedia st mediaId = some m) :
    getCachedData (recordView st mediaId ip now).2
      (generateAnalyticsCacheKey mediaId) t = none ∧
    (getAnalytics (recordView st mediaId ip now).2 mediaId now2).1 =
      .analytics
        (computeAnalytics (st.viewLog ++ [⟨mediaId, ip, now⟩]) mediaId now2)
        false ∧
    getCachedData (streamUrl st mediaId ip now tok).2
      (generateAnalyticsCacheKey mediaId) t = none ∧
    (getAnalytics (streamUrl st mediaId ip now tok).2 mediaId now2).1 =
      .analytics
        (computeAnalytics (st.viewLog ++ [⟨mediaId, ip, now⟩]) mediaId now2)
        false := by
  have h1 : (recordView st mediaId ip now).2 =
      invalidateAnalyticsCache
        { st with viewLog := st.viewLog ++ [⟨mediaId, ip, now⟩] } mediaId := by
    rw [recordView_some ip now hm]
  have h2 : (streamUrl st mediaId ip now tok).2 =
      invalidateAnalyticsCache
        { st with
          tokens := mapSet st.tokens tok ⟨mediaId, now + 600000, ip⟩,
          viewLog := st.viewLog ++ [⟨mediaId, ip, now⟩] } mediaId := by
    rw [streamUrl_some ip now tok hm]
  have hm1 : findMedia (recordView st mediaId ip now).2 mediaId = some m := by
    rw [h1, findMedia_invalidate]
    exact hm
  have hm2 : findMedia (streamUrl st mediaId ip now tok).2 mediaId = some m := by
    rw [h2, findMedia_invalidate]
    exact hm
  have hc1 : ∀ u, getCachedData (recordView st mediaId ip now).2
      (generateAnalyticsCacheKey mediaId) u = none := by
    intro u
    rw [h1]
    exact getCachedData_invalidate_self _ _ _
  have hc2 : ∀ u, getCachedData (streamUrl st mediaId ip now tok).2
      (generateAnalyticsCacheKey mediaId) u = none := by
    intro u
    rw [h2]
    exact getCachedData_invalidate_self _ _ _
  have hvl1 : (recordView st mediaId ip now).2.viewLog =
      st.viewLog ++ [⟨mediaId, ip, now⟩] := by
    rw [h1, (invalidate_fields _ _).2.1]
  have hvl2 : (streamUrl st mediaId ip now tok).2.viewLog =
      st.viewLog ++ [⟨mediaId, ip, now⟩] := by
    rw [h2, (invalidate_fields _ _).2.1]
  refine ⟨hc1 t, ?_, hc2 t, ?_⟩
  · rw [getAnalytics_miss hm1 (hc1 now2), hvl1]
  · rw [getAnalytics_miss hm2 (hc2 now2), hvl2]

/-- C3 (witness): object 1 present with a stale cached snapshot that both write paths make
unreadable. -/
theorem c3_witness :
    getCachedData (recordView (⟨[⟨1, "T", "video", "/uploads/f.mp4"⟩],
        [⟨1, "1.1.1.1", 5⟩], [], [(generateAnalyticsCacheKey 1,
          (computeAnalytics [⟨1, "1.1.1.1", 5⟩] 1 6, 999999))], true,
        ["f.mp4"]⟩ : St) 1 "2.2.2.2" 10).2
      (generateAnalyticsCacheKey 1) 11 = none ∧
    (getAnalytics (recordView (⟨[⟨1, "T", "video", "/uploads/f.mp4"⟩],
        [⟨1, "1.1.1.1", 5⟩], [], [(generateAnalyticsCacheKey 1,
          (computeAnalytics [⟨1, "1.1.1.1", 5⟩] 1 6, 999999))], true,
        ["f.mp4"]⟩ : St) 1 "2.2.2.2" 10).2 1 12).1 =
      .analytics
        (computeAnalytics ([⟨1, "1.1.1.1", 5⟩] ++ [⟨1, "2.2.2.2", 10⟩]) 1 12)
        false ∧
    getCachedData (streamUrl (⟨[⟨1, "T", "video", "/uploads/f.mp4"⟩],
        [⟨1, "1.1.1.1", 5⟩], [], [(generateAnalyticsCacheKey 1,
          (computeAnalytics [⟨1, "1.1.1.1", 5⟩] 1 6, 999999))], true,
        ["f.mp4"]⟩ : St) 1 "2.2.2.2" 10 "tok").2
      (generateAnalyticsCacheKey 1) 11 = none ∧
    (getAnalytics (streamUrl (⟨[⟨1, "T", "video", "/uploads/f.mp4"⟩],
        [⟨1, "1.1.1.1", 5⟩], [], [(generateAnalyticsCacheKey 1,
          (computeAnalytics [⟨1, "1.1.1.1", 5⟩] 1 6, 999999))], true,
        ["f.mp4"]⟩ : St) 1 "2.2.2.2" 10 "tok").2 1 12).1 =
      .analytics
        (computeAnalytics ([⟨1, "1.1.1.1", 5⟩] ++ [⟨1, "2.2.2.2", 10⟩]) 1 12)
        false :=
  c3_invalidation (⟨[⟨1, "T", "video", "/uploads/f.mp4"⟩],
      [⟨1, "1.1.1.1", 5⟩], [], [(generateAnalyticsCacheKey 1,
        (computeAnalytics [⟨1, "1.1.1.1", 5⟩] 1 6, 999999))], true,
      ["f.mp4"]⟩ : St) 1 "2.2.2.2" "tok" 10 11 12
    ⟨1, "T", "video", "/uploads/f.mp4"⟩ (by rfl)

/-- C7: on an existing object with no live cached entry and a reachable backend, the first
GetAnalytics computes the snapshot and is tagged cache-miss, and a second GetAnalytics
within the 5-minute TTL with no intervening ViewEvent returns the identical snapshot
tagged cache-hit. -/
theorem c7_cache_hit (st : St) (mediaId : Nat) (m : MediaAsset) (now1 now2 : Nat)
    (hm : findMedia st mediaId = some m) (hup : st.redisUp = true)
    (hc : getCachedData st (generateAnalyticsCacheKey mediaId) now1 = none)
    (h2 : now2 < now1 + 300000) :
    (getAnalytics st mediaId now1).1 =
      .analytics (computeAnalytics st.viewLog mediaId now1) false ∧
    (getAnalytics (getAnalytics st mediaId now1).2 mediaId now2).1 =
      .analytics (computeAnalytics st.viewLog mediaId now1) true := by
  have h1 := getAnalytics_miss hm hc
  constructor
  · rw [h1]
  · rw [h1]
    have hm2 : findMedia (setCachedData st (generateAnalyticsCacheKey mediaId)
        (computeAnalytics st.viewLog mediaId now1) now1 300000) mediaId = some m := by
      unfold findMedia
      rw [(setCachedData_fields _ _ _ _ _).1]
      exact hm
    have hc2 : getCachedData (setCachedData st (generateAnalyticsCacheKey mediaId)
        (computeAnalytics st.viewLog mediaId now1) now1 300000)
        (generateAnalyticsCacheKey mediaId) now2 =
        some (computeAnalytics st.viewLog mediaId now1) := by
      simp [setCachedData, getCachedData, hup, lookupA_mapSet_self, h2]
    rw [getAnalytics_hit hm2 hc2]

/-- C7 (witness): two reads at times 10 and 20 on object 1 with one logged view. -/
theorem c7_witness :
    (getAnalytics (⟨[⟨1, "T", "video", "/uploads/f.mp4"⟩],
        [⟨1, "1.1.1.1", 5⟩], [], [], true, ["f.mp4"]⟩ : St) 1 10).1 =
      .analytics (computeAnalytics [⟨1, "1.1.1.1", 5⟩] 1 10) false ∧
    (getAnalytics (getAnalytics (⟨[⟨1, "T", "video", "/uploads/f.mp4"⟩],
        [⟨1, "1.1.1.1", 5⟩], [], [], true, ["f.mp4"]⟩ : St) 1 10).2 1 20).1 =
      .analytics (computeAnalytics [⟨1, "1.1.1.1", 5⟩] 1 10) true :=
  c7_cache_hit (⟨[⟨1, "T", "video", "/uploads/f.mp4"⟩],
      [⟨1, "1.1.1.1", 5⟩], [], [], true, ["f.mp4"]⟩ : St) 1
    ⟨1, "T", "video", "/uploads/f.mp4"⟩ 10 20 (by rfl) (by rfl) (by rfl) (by decide)

/-- C4: on a cache miss for an existing object, GetAnalytics computes the snapshot from
the view log with: total_views the count of all events for the object; unique_viewer_count
the number of distinct viewer IPs; daily_histogram the per-calendar-day counts restricted
to the 30-day window before computation time, keyed by day, empty days omitted (every key
has a positive count and every windowed event's day appears), ordered strictly descending
by day; and recent_views of length `min 10 total_views`, ordered descending by timestamp,
drawn from the object's events, containing every event not older than all of its
members. -/
theorem c4_snapshot (st : St) (mediaId now : Nat) (m : MediaAsset)
    (d c : Nat) (e : ViewEvent) (r r2 : RecentView)
    (hm : findMedia st mediaId = some m)
    (hc : getCachedData st (generateAnalyticsCacheKey mediaId) now = none)
    (hdc : (d, c) ∈ (computeAnalytics st.viewLog mediaId now).views_per_day)
    (he : e ∈ eventsFor st.viewLog mediaId)
    (hew : dayOf now - 30 ≤ dayOf e.timestamp)
    (hr : r ∈ (computeAnalytics st.viewLog mediaId now).recent_views)
    (hr2 : r2 ∈ (computeAnalytics st.viewLog mediaId now).recent_views) :
    (getAnalytics st mediaId now).1 =
      .analytics (computeAnalytics st.viewLog mediaId now) false ∧
    (computeAnalytics st.viewLog mediaId now).total_views =
      st.viewLog.countP (fun x => x.media_id == mediaId) ∧
    (computeAnalytics st.viewLog mediaId now).unique_ips =
      ((eventsFor st.viewLog mediaId).map (fun x => x.viewed_by_ip)).toFinset.card ∧
    dayOf now - 30 ≤ d ∧
    0 < c ∧
    c = ((windowEvents st.viewLog mediaId now).filter
      (fun x => dayOf x.timestamp == d)).length ∧
    (dayOf e.timestamp,
      ((windowEvents st.viewLog mediaId now).filter
        (fun x => dayOf x.timestamp == dayOf e.timestamp)).length) ∈
      (computeAnalytics st.viewLog mediaId now).views_per_day ∧
    List.Pairwise (fun p q : Nat × Nat => q.1 < p.1)
      (computeAnalytics st.viewLog mediaId now).views_per_day ∧
    (computeAnalytics st.viewLog mediaId now).recent_views.length =
      min 10 (computeAnalytics st.viewLog mediaId now).total_views ∧
    List.Pairwise (fun p q : RecentView => q.timestamp ≤ p.timestamp)
      (computeAnalytics st.viewLog mediaId now).recent_views ∧
    r ∈ (eventsFor st.viewLog mediaId).map
      (fun x => RecentView.mk x.viewed_by_ip x.timestamp) ∧
    (RecentView.mk e.viewed_by_ip e.timestamp ∈
        (computeAnalytics st.viewLog mediaId now).recent_views ∨
      e.timestamp ≤ r2.timestamp) := by
  have hew' : e ∈ windowEvents st.viewLog mediaId now :=
    List.mem_filter.mpr ⟨he, decide_eq_true hew⟩
  obtain ⟨hd1, hd2, hd3⟩ := histogram_mem hdc
  refine ⟨by rw [getAnalytics_miss hm hc], total_views_countP _ _ _,
    unique_ips_card _ _ _, hd1, hd2, hd3, histogram_complete hew',
    histogram_sorted _ _ _, length_recentViews _ _, pairwise_recentViews _ _,
    recentViews_subset hr, recentViews_most_recent he hr2⟩

/-- C4 (witness): two events on day 40 read on day 40; the histogram holds the pair
(40, 2) and both events appear among the recent views. -/
theorem c4_witness :
    (getAnalytics (⟨[⟨1, "T", "video", "/uploads/f.mp4"⟩],
        [⟨1, "a", 3456000000⟩, ⟨1, "b", 3456000005⟩], [], [], true,
        ["f.mp4"]⟩ : St) 1 3456000010).1 =
      .analytics (computeAnalytics [⟨1, "a", 3456000000⟩, ⟨1, "b", 3456000005⟩] 1
        3456000010) false ∧
    (computeAnalytics [⟨1, "a", 3456000000⟩, ⟨1, "b", 3456000005⟩] 1
        3456000010).total_views =
      List.countP (fun x => x.media_id == 1)
        ([⟨1, "a", 3456000000⟩, ⟨1, "b", 3456000005⟩] : List ViewEvent) ∧
    (computeAnalytics [⟨1, "a", 3456000000⟩, ⟨1, "b", 3456000005⟩] 1
        3456000010).unique_ips =
      ((eventsFor [⟨1, "a", 3456000000⟩, ⟨1, "b", 3456000005⟩] 1).map
        (fun x => x.viewed_by_ip)).toFinset.card ∧
    dayOf 3456000010 - 30 ≤ 40 ∧
    0 < 2 ∧
    2 = ((windowEvents [⟨1, "a", 3456000000⟩, ⟨1, "b", 3456000005⟩] 1
        3456000010).filter (fun x => dayOf x.timestamp == 40)).length ∧
    (dayOf (⟨1, "a", 3456000000⟩ : ViewEvent).timestamp,
      ((windowEvents [⟨1, "a", 3456000000⟩, ⟨1, "b", 3456000005⟩] 1
        3456000010).filter (fun x => dayOf x.timestamp ==
          dayOf (⟨1, "a", 3456000000⟩ : ViewEvent).timestamp)).length) ∈
      (computeAnalytics [⟨1, "a", 3456000000⟩, ⟨1, "b", 3456000005⟩] 1
        3456000010).views_per_day ∧
    List.Pairwise (fun p q : Nat × Nat => q.1 < p.1)
      (computeAnalytics [⟨1, "a", 3456000000⟩, ⟨1, "b", 3456000005⟩] 1
        3456000010).views_per_day ∧
    (computeAnalytics [⟨1, "a", 3456000000⟩, ⟨1, "b", 3456000005⟩] 1
        3456000010).recent_views.length =
      min 10 (computeAnalytics [⟨1, "a", 3456000000⟩, ⟨1, "b", 3456000005⟩] 1
        3456000010).total_views ∧
    List.Pairwise (fun p q : RecentView => q.timestamp ≤ p.timestamp)
      (computeAnalytics [⟨1, "a", 3456000000⟩, ⟨1, "b", 3456000005⟩] 1
        3456000010).recent_views ∧
    RecentView.mk "b" 3456000005 ∈
      (eventsFor [⟨1, "a", 3456000000⟩, ⟨1, "b", 3456000005⟩] 1).map
        (fun x => RecentView.mk x.viewed_by_ip x.timestamp) ∧
    (RecentView.mk (⟨1, "a", 3456000000⟩ : ViewEvent).viewed_by_ip
        (⟨1, "a", 3456000000⟩ : ViewEvent).timestamp ∈
        (computeAnalytics [⟨1, "a", 3456000000⟩, ⟨1, "b", 3456000005⟩] 1
          3456000010).recent_views ∨
      (⟨1, "a", 3456000000⟩ : ViewEvent).timestamp ≤
        (RecentView.mk "b" 3456000005).timestamp) :=
  c4_snapshot (⟨[⟨1, "T", "video", "/uploads/f.mp4"⟩],
      [⟨1, "a", 3456000000⟩, ⟨1, "b", 3456000005⟩], [], [], true,
      ["f.mp4"]⟩ : St) 1 3456000010 ⟨1, "T", "video", "/uploads/f.mp4"⟩
    40 2 ⟨1, "a", 3456000000⟩ (RecentView.mk "b" 3456000005)
    (RecentView.mk "b" 3456000005)
    (by rfl) (by rfl) (by decide) (by decide) (by decide) (by decide) (by decide)

theorem checkAdmission_fresh {rl : RLState} {key : String} {w l now : Nat}
    (h : lookupA rl key = none) :
    checkAdmission w l rl key now = (.allowed, mapSet rl key ⟨1, now⟩) := by
  simp [checkAdmission, h]

theorem checkAdmission_count {rl : RLState} {key : String} {w l now c ws : Nat}
    (h : lookupA rl key = some ⟨c, ws⟩) (hw : ¬ (ws + w ≤ now)) (hcl : c < l) :
    checkAdmission w l rl key now = (.allowed, mapSet rl key ⟨c + 1, ws⟩) := by
  simp [checkAdmission, h, hw, hcl]

theorem checkAdmission_denied {rl : RLState} {key : String} {w l now c ws : Nat}
    (h : lookupA rl key = some ⟨c, ws⟩) (hw : ¬ (ws + w ≤ now)) (hcl : ¬ (c < l)) :
    checkAdmission w l rl key now = (.denied (ws + w - now), rl) := by
  simp [checkAdmission, h, hw, hcl]

theorem admitSeq_under_limit (w l : Nat) (key : String) (ws : Nat) (ts : List Nat) :
    ∀ (rl : RLState) (c : Nat),
      lookupA rl key = some ⟨c, ws⟩ →
      (∀ t ∈ ts, t < ws + w) →
      c + ts.length ≤ l →
      (admitSeq w l rl (ts.map (fun t => (key, t)))).1 =
        List.replicate ts.length MediaResult.allowed ∧
      lookupA (admitSeq w l rl (ts.map (fun t => (key, t)))).2 key =
        some ⟨c + ts.length, ws⟩ ∧
      ∀ k', k' ≠ key →
        lookupA (admitSeq w l rl (ts.map (fun t => (key, t)))).2 k' =
          lookupA rl k' := by
  induction ts with
  | nil =>
    intro rl c hc hts hlim
    exact ⟨rfl, by simpa using hc, fun k' _ => rfl⟩
  | cons t ts ih =>
    intro rl c hc hts hlim
    rw [List.length_cons] at hlim
    have hnw : ¬ (ws + w ≤ t) := by
      have h := hts t (List.mem_cons_self t ts)
      omega
    have hcl : c < l := by omega
    have hstep : checkAdmission w l rl key t =
        (.allowed, mapSet rl key ⟨c + 1, ws⟩) := checkAdmission_count hc hnw hcl
    obtain ⟨ih1, ih2, ih3⟩ := ih (mapSet rl key ⟨c + 1, ws⟩) (c + 1)
      (lookupA_mapSet_self _ _ _)
      (fun t' ht' => hts t' (List.mem_cons_of_mem _ ht'))
      (by omega)
    refine ⟨?_, ?_, ?_⟩
    · rw [List.map_cons]
      simp only [admitSeq, hstep]
      rw [ih1, List.length_cons, List.replicate_succ]
    · rw [List.map_cons]
      simp only [admitSeq, hstep]
      rw [ih2, List.length_cons]
      have hcc : c + 1 + ts.length = c + (ts.length + 1) := by omega
      rw [hcc]
    · intro k' hk'
      rw [List.map_cons]
      simp only [admitSeq, hstep]
      rw [ih3 k' hk', lookupA_mapSet_ne _ _ hk']

/-- C9: the view-logging admission counter is keyed by (source IP, object id) with a
1-minute window and limit 10 — from a fresh key, requests 1–10 within the window are
allowed, the 11th is Denied carrying the remaining window, the denied request does not
increment the counter (state unchanged), and a 12th request for a different object from
the same source in the same window is allowed because it counts against a different
key. -/
theorem c9_admission (rl0 : RLState) (ip idA idB : String) (t1 : Nat)
    (ts : List Nat) (t11 t12 : Nat)
    (hA : lookupA rl0 (viewLoggingKey ip idA) = none)
    (hB : lookupA rl0 (viewLoggingKey ip idB) = none)
    (hAB : idA ≠ idB)
    (hlen : ts.length = 9)
    (hts : ∀ t ∈ ts, t < t1 + viewLoggingWindowMs)
    (h11 : t11 < t1 + viewLoggingWindowMs)
    (h12 : t12 < t1 + viewLoggingWindowMs) :
    (admitSeq viewLoggingWindowMs viewLoggingMax rl0
        ((viewLoggingKey ip idA, t1) ::
          ts.map (fun t => (viewLoggingKey ip idA, t)))).1 =
      List.replicate 10 MediaResult.allowed ∧
    (checkAdmission viewLoggingWindowMs viewLoggingMax
        (admitSeq viewLoggingWindowMs viewLoggingMax rl0
          ((viewLoggingKey ip idA, t1) ::
            ts.map (fun t => (viewLoggingKey ip idA, t)))).2
        (viewLoggingKey ip idA) t11).1 =
      .denied (t1 + viewLoggingWindowMs - t11) ∧
    (checkAdmission viewLoggingWindowMs viewLoggingMax
        (admitSeq viewLoggingWindowMs viewLoggingMax rl0
          ((viewLoggingKey ip idA, t1) ::
            ts.map (fun t => (viewLoggingKey ip idA, t)))).2
        (viewLoggingKey ip idA) t11).2 =
      (admitSeq viewLoggingWindowMs viewLoggingMax rl0
        ((viewLoggingKey ip idA, t1) ::
          ts.map (fun t => (viewLoggingKey ip idA, t)))).2 ∧
    (checkAdmission viewLoggingWindowMs viewLoggingMax
        (admitSeq viewLoggingWindowMs viewLoggingMax rl0
          ((viewLoggingKey ip idA, t1) ::
            ts.map (fun t => (viewLoggingKey ip idA, t)))).2
        (viewLoggingKey ip idB) t12).1 =
      .allowed := by
  have hstep1 : checkAdmission viewLoggingWindowMs viewLoggingMax rl0
      (viewLoggingKey ip idA) t1 =
      (.allowed, mapSet rl0 (viewLoggingKey ip idA) ⟨1, t1⟩) :=
    checkAdmission_fresh hA
  obtain ⟨h1, h2, h3⟩ := admitSeq_under_limit viewLoggingWindowMs viewLoggingMax
    (viewLoggingKey ip idA) t1 ts (mapSet rl0 (viewLoggingKey ip idA) ⟨1, t1⟩) 1
    (lookupA_mapSet_self _ _ _) hts (by rw [hlen]; decide)
  have h2' : lookupA (admitSeq viewLoggingWindowMs viewLoggingMax
      (mapSet rl0 (viewLoggingKey ip idA) ⟨1, t1⟩)
      (ts.map (fun t => (viewLoggingKey ip idA, t)))).2 (viewLoggingKey ip idA) =
      some ⟨10, t1⟩ := by
    rw [h2, hlen]
  have hne : viewLoggingKey ip idB ≠ viewLoggingKey ip idA :=
    Ne.symm (viewLoggingKey_ne ip hAB)
  have hdenied := checkAdmission_denied h2'
    (show ¬ (t1 + viewLoggingWindowMs ≤ t11) by omega)
    (show ¬ ((10 : Nat) < viewLoggingMax) by decide)
  have hfresh := @checkAdmission_fresh _ (viewLoggingKey ip idB)
    viewLoggingWindowMs viewLoggingMax t12
    ((h3 _ hne).trans ((lookupA_mapSet_ne _ _ hne).trans hB))
  refine ⟨?_, ?_, ?_, ?_⟩
  · simp only [admitSeq, hstep1]
    rw [h1, hlen]
    rfl
  · simp only [admitSeq, hstep1]
    rw [hdenied]
  · simp only [admitSeq, hstep1]
    rw [hdenied]
  · simp only [admitSeq, hstep1]
    rw [hfresh]

/-- C9 (witness): eleven requests for object "7" from one source at time 0, then one for
object "8". -/
theorem c9_witness :
    (admitSeq viewLoggingWindowMs viewLoggingMax []
        ((viewLoggingKey "1.2.3.4" "7", 0) ::
          (List.replicate 9 0).map (fun t => (viewLoggingKey "1.2.3.4" "7", t)))).1 =
      List.replicate 10 MediaResult.allowed ∧
    (checkAdmission viewLoggingWindowMs viewLoggingMax
        (admitSeq viewLoggingWindowMs viewLoggingMax []
          ((viewLoggingKey "1.2.3.4" "7", 0) ::
            (List.replicate 9 0).map
              (fun t => (viewLoggingKey "1.2.3.4" "7", t)))).2
        (viewLoggingKey "1.2.3.4" "7") 0).1 =
      .denied (0 + viewLoggingWindowMs - 0) ∧
    (checkAdmission viewLoggingWindowMs viewLoggingMax
        (admitSeq viewLoggingWindowMs viewLoggingMax []
          ((viewLoggingKey "1.2.3.4" "7", 0) ::
            (List.replicate 9 0).map
              (fun t => (viewLoggingKey "1.2.3.4" "7", t)))).2
        (viewLoggingKey "1.2.3.4" "7") 0).2 =
      (admitSeq viewLoggingWindowMs viewLoggingMax []
        ((viewLoggingKey "1.2.3.4" "7", 0) ::
          (List.replicate 9 0).map
            (fun t => (viewLoggingKey "1.2.3.4" "7", t)))).2 ∧
    (checkAdmission viewLoggingWindowMs viewLoggingMax
        (admitSeq viewLoggingWindowMs viewLoggingMax []
          ((viewLoggingKey "1.2.3.4" "7", 0) ::
            (List.replicate 9 0).map
              (fun t => (viewLoggingKey "1.2.3.4" "7", t)))).2
        (viewLoggingKey "1.2.3.4" "8") 0).1 =
      .allowed :=
  c9_admission [] "1.2.3.4" "7" "8" 0 (List.replicate 9 0) 0 0
    (by rfl) (by rfl) (by decide) (by rfl) (by decide) (by decide) (by decide)

end Klantroef
